import Mathlib

/-!
Verification of the S3 CSV handler (`s3_csv_handler.py`).

Strings are modelled as `List Char`.  The boto3 S3 client is modelled as an
oracle (`S3Client`) whose methods may either succeed or raise an error
(`Except PyError`).  Every observable side effect (client construction,
directory creation, backend calls) is recorded in a trace of `Event`s.
Python's `try/except` blocks are modelled by a `_try` function returning
`Except PyError` for each operation's try-block, with the public operation
pattern-matching on it exactly where the source has its except clauses.
-/

/-- The Python exception kinds that can be raised in this program:
`ValueError` (raised by `parse_s3_path`), `botocore.exceptions.ClientError`
(raised by the backend client), pandas parse failures on empty/invalid data,
and any other `Exception`. -/
inductive PyError where
  | valueError : PyError
  | clientError : PyError
  | emptyDataError : PyError
  | otherError : PyError
deriving DecidableEq, Repr

/-- Observable side effects: constructing the boto3 client, creating or
removing a local directory, and the five backend calls. `removeDir` is in the
vocabulary so that "the directory is never removed" is a falsifiable
statement; the source never emits it. -/
inductive Event where
  | createClient : Event
  | createDir : List Char → Event
  | removeDir : List Char → Event
  | uploadFile : List Char → List Char → Event
  | downloadFile : List Char → List Char → List Char → Event
  | listObjects : List Char → List Char → Event
  | getObject : List Char → List Char → Event
  | putObject : List Char → List Char → List Char → Event
deriving DecidableEq, Repr

/-- Python's `s.split(sep, 1)`: the part before the first separator, and
(when the separator occurs) the remainder after it. -/
def splitFirst (sep : Char) : List Char → List Char × Option (List Char)
  | [] => ([], none)
  | c :: rest =>
    if c = sep then ([], some rest)
    else
      let r := splitFirst sep rest
      (c :: r.1, r.2)

/-- `parse_s3_path` (lines 35-46): checks the literal scheme, strips the
first five characters, splits once on the first slash; a missing key
defaults to the empty string.  A bad scheme raises `ValueError`. -/
def parse_s3_path (s3_path : List Char) : Except PyError (List Char × List Char) :=
  if ("s3://".data) <+: s3_path then
    Except.ok ((splitFirst '/' (s3_path.drop 5)).1,
               ((splitFirst '/' (s3_path.drop 5)).2).getD [])
  else Except.error PyError.valueError

/-- `os.path.exists`, given an oracle `fs` for nonempty paths; in Python the
empty path never exists. -/
def os_path_exists (fs : List Char → Bool) (p : List Char) : Bool :=
  !p.isEmpty && fs p

/-- `os.makedirs`: raises on the empty path (as CPython does), otherwise
succeeds. -/
def os_makedirs (d : List Char) : Except PyError Unit :=
  if d = [] then Except.error PyError.otherError else Except.ok ()

/-- `os.path.basename` for POSIX paths: everything after the last slash. -/
def os_path_basename (p : List Char) : List Char :=
  (p.reverse.takeWhile (fun c => c != '/')).reverse

/-- `os.path.join` for POSIX paths, two arguments. -/
def os_path_join (d f : List Char) : List Char :=
  if f.head? = some '/' then f
  else if d.isEmpty then f
  else if d.getLast? = some '/' then d ++ f
  else d ++ '/' :: f

/-- The destination-key computation of `upload_csv_to_s3` (lines 68-73):
append a slash to a nonempty key that does not already end in one,
then append the filename. -/
def upload_s3_key (keyPref filename : List Char) : List Char :=
  let kp := if keyPref ≠ [] ∧ keyPref.getLast? ≠ some '/' then keyPref ++ ['/'] else keyPref
  kp ++ filename

/-- The destination key exactly as claim C3 words it: a separator is
inserted whenever the parsed prefix does not already end in a slash
(with no exemption for the empty prefix). -/
def claimedUploadKey (keyPref filename : List Char) : List Char :=
  if keyPref.getLast? ≠ some '/' then keyPref ++ '/' :: filename
  else keyPref ++ filename

/-- The destination key as the amended claim words it: a separator is
inserted whenever the parsed prefix is nonempty and does not already end in
a slash; the empty prefix gets no separator. -/
def amendedUploadKey (keyPref filename : List Char) : List Char :=
  if keyPref ≠ [] ∧ keyPref.getLast? ≠ some '/' then keyPref ++ '/' :: filename
  else keyPref ++ filename

/-- The boto3 S3 client as an oracle: each method may succeed or raise.
`list_objects_v2` returns `none` when the response has no `Contents` entry. -/
structure S3Client where
  upload_file : List Char → List Char → List Char → Except PyError Unit
  download_file : List Char → List Char → List Char → Except PyError Unit
  list_objects_v2 : List Char → List Char → Except PyError (Option (List (List Char)))
  get_object : List Char → List Char → Except PyError (List Char)
  put_object : List Char → List Char → List Char → Except PyError Unit

/-- The try-block of `upload_csv_to_s3` (lines 63-83): parse the path,
compute the destination key, construct the client, upload, return `True`. -/
def upload_try (client : S3Client) (local_file_path s3_path : List Char) :
    Except PyError Bool × List Event :=
  match parse_s3_path s3_path with
  | Except.error e => (Except.error e, [])
  | Except.ok (bucket_name, keyPref) =>
    let s3_key := upload_s3_key keyPref (os_path_basename local_file_path)
    match client.upload_file local_file_path bucket_name s3_key with
    | Except.error e => (Except.error e, [Event.createClient, Event.uploadFile bucket_name s3_key])
    | Except.ok _ => (Except.ok true, [Event.createClient, Event.uploadFile bucket_name s3_key])

/-- `upload_csv_to_s3` (lines 48-90): the existence check precedes the try
block; `except ClientError` and `except Exception` both return `False`. -/
def upload_csv_to_s3 (fs : List Char → Bool) (client : S3Client)
    (local_file_path s3_path : List Char) : Bool × List Event :=
  if os_path_exists fs local_file_path then
    match upload_try client local_file_path s3_path with
    | (Except.ok b, tr) => (b, tr)
    | (Except.error _, tr) => (false, tr)
  else (false, [])

/-- A client whose every call fails with `ClientError`. -/
def failClient : S3Client where
  upload_file := fun _ _ _ => Except.error PyError.clientError
  download_file := fun _ _ _ => Except.error PyError.clientError
  list_objects_v2 := fun _ _ => Except.error PyError.clientError
  get_object := fun _ _ => Except.error PyError.clientError
  put_object := fun _ _ _ => Except.error PyError.clientError

/-- The try-block of `download_csv_from_s3` (lines 103-123): parse the path,
create the local directory when absent, derive the local filename, construct
the client, download, return the local path. -/
def download_try (fs : List Char → Bool) (client : S3Client)
    (s3_path local_directory : List Char) : Except PyError (List Char) × List Event :=
  match parse_s3_path s3_path with
  | Except.error e => (Except.error e, [])
  | Except.ok (bucket_name, s3_key) =>
    match (if os_path_exists fs local_directory then (Except.ok (), ([] : List Event))
           else match os_makedirs local_directory with
                | Except.error e => (Except.error e, ([] : List Event))
                | Except.ok _ => (Except.ok (), [Event.createDir local_directory])) with
    | (Except.error e, tr) => (Except.error e, tr)
    | (Except.ok _, tr) =>
      let local_file_path := os_path_join local_directory (os_path_basename s3_key)
      match client.download_file bucket_name s3_key local_file_path with
      | Except.error e =>
          (Except.error e,
           tr ++ [Event.createClient, Event.downloadFile bucket_name s3_key local_file_path])
      | Except.ok _ =>
          (Except.ok local_file_path,
           tr ++ [Event.createClient, Event.downloadFile bucket_name s3_key local_file_path])

/-- `download_csv_from_s3` (lines 92-130): both except clauses return `None`. -/
def download_csv_from_s3 (fs : List Char → Bool) (client : S3Client)
    (s3_path local_directory : List Char) : Option (List Char) × List Event :=
  match download_try fs client s3_path local_directory with
  | (Except.ok p, tr) => (some p, tr)
  | (Except.error _, tr) => (none, tr)

/-- The accumulation loop of `list_csv_files_in_s3` (lines 157-162): append
the rendered path for every key whose lowercased form ends in `.csv`. -/
def filter_csv_keys (bucket_name : List Char) (objs : List (List Char)) : List (List Char) :=
  objs.foldl
    (fun acc key =>
      if (".csv".data) <:+ (key.map Char.toLower)
      then acc ++ [("s3://".data) ++ bucket_name ++ '/' :: key]
      else acc)
    []

/-- The try-block of `list_csv_files_in_s3` (lines 142-164): parse the path,
construct the client, issue one listing request, filter for `.csv` keys;
a response without `Contents` yields the empty list. -/
def list_try (client : S3Client) (s3_path : List Char) :
    Except PyError (List (List Char)) × List Event :=
  match parse_s3_path s3_path with
  | Except.error e => (Except.error e, [])
  | Except.ok (bucket_name, keyPref) =>
    match client.list_objects_v2 bucket_name keyPref with
    | Except.error e => (Except.error e, [Event.createClient, Event.listObjects bucket_name keyPref])
    | Except.ok none => (Except.ok [], [Event.createClient, Event.listObjects bucket_name keyPref])
    | Except.ok (some objs) =>
        (Except.ok (filter_csv_keys bucket_name objs),
         [Event.createClient, Event.listObjects bucket_name keyPref])

/-- `list_csv_files_in_s3` (lines 132-171): both except clauses return `[]`. -/
def list_csv_files_in_s3 (client : S3Client) (s3_path : List Char) :
    List (List Char) × List Event :=
  match list_try client s3_path with
  | (Except.ok files, tr) => (files, tr)
  | (Except.error _, tr) => ([], tr)

/-- Split a character list at every occurrence of `sep`; like Python's
`str.split(sep)`, the result always has at least one part. -/
def splitList (sep : Char) : List Char → List (List Char)
  | [] => [[]]
  | c :: rest =>
    if c = sep then [] :: splitList sep rest
    else
      match splitList sep rest with
      | [] => [[c]]
      | p :: ps => (c :: p) :: ps

/-- Join parts with a separator character. -/
def joinSep (sep : Char) : List (List Char) → List Char
  | [] => []
  | [p] => p
  | p :: q :: ps => p ++ sep :: joinSep sep (q :: ps)

/-- Modelled from the spec: the in-memory tabular dataset ("Table") used as
a pass-through payload, rows by named columns; the pandas DataFrame is not
part of this repository. -/
structure DataFrame where
  columns : List (List Char)
  rows : List (List (List Char))
deriving DecidableEq, Repr

/-- Modelled from the spec: `pd.read_csv`, "parses it as delimited tabular
text using standard header-row conventions (first row = column names)"; a
trailing newline ends the last record, and a body with no records at all
fails with a parse error (pandas is not part of this repository). -/
def pd_read_csv (body : List Char) : Except PyError DataFrame :=
  let lines0 := splitList '\n' body
  let lines := if lines0.getLast? = some [] then lines0.dropLast else lines0
  match lines with
  | [] => Except.error PyError.emptyDataError
  | header :: rest =>
      Except.ok ⟨splitList ',' header, rest.map (fun ln => splitList ',' ln)⟩

/-- Modelled from the spec: `df.to_csv(index=False)`, "serializes the table
to delimited text (header row included, no row-index column)", ending with
a trailing newline (pandas is not part of this repository). -/
def pd_to_csv (df : DataFrame) : List Char :=
  joinSep '\n' (joinSep ',' df.columns :: df.rows.map (fun r => joinSep ',' r)) ++ ['\n']

/-- The try-block of `read_csv_from_s3` (lines 183-198): parse the path,
construct the client, fetch the object body, parse it as CSV. -/
def read_try (client : S3Client) (s3_path : List Char) :
    Except PyError DataFrame × List Event :=
  match parse_s3_path s3_path with
  | Except.error e => (Except.error e, [])
  | Except.ok (bucket_name, s3_key) =>
    match client.get_object bucket_name s3_key with
    | Except.error e => (Except.error e, [Event.createClient, Event.getObject bucket_name s3_key])
    | Except.ok body =>
      match pd_read_csv body with
      | Except.error e => (Except.error e, [Event.createClient, Event.getObject bucket_name s3_key])
      | Except.ok df => (Except.ok df, [Event.createClient, Event.getObject bucket_name s3_key])

/-- `read_csv_from_s3` (lines 173-205): both except clauses return `None`. -/
def read_csv_from_s3 (client : S3Client) (s3_path : List Char) :
    Option DataFrame × List Event :=
  match read_try client s3_path with
  | (Except.ok df, tr) => (some df, tr)
  | (Except.error _, tr) => (none, tr)

/-- The try-block of `write_dataframe_to_s3` (lines 218-237): parse the
path, serialize the table, construct the client, put the object, return
`True`. -/
def write_try (client : S3Client) (df : DataFrame) (s3_path : List Char) :
    Except PyError Bool × List Event :=
  match parse_s3_path s3_path with
  | Except.error e => (Except.error e, [])
  | Except.ok (bucket_name, s3_key) =>
    let csv_buffer := pd_to_csv df
    match client.put_object bucket_name s3_key csv_buffer with
    | Except.error e =>
        (Except.error e, [Event.createClient, Event.putObject bucket_name s3_key csv_buffer])
    | Except.ok _ =>
        (Except.ok true, [Event.createClient, Event.putObject bucket_name s3_key csv_buffer])

/-- `write_dataframe_to_s3` (lines 207-244): both except clauses return
`False`. -/
def write_dataframe_to_s3 (client : S3Client) (df : DataFrame) (s3_path : List Char) :
    Bool × List Event :=
  match write_try client df s3_path with
  | (Except.ok b, tr) => (b, tr)
  | (Except.error _, tr) => (false, tr)

/-- The command-line arguments after `argparse` has run: one flag per
command plus the two positional arguments. -/
structure CliArgs where
  upload : Bool
  download : Bool
  list : Bool
  source : List Char
  destination : List Char

/-- Python truthiness of an optional string: `None` and the empty string
are falsy. -/
def py_truthy : Option (List Char) → Bool
  | none => false
  | some s => !s.isEmpty

/-- `main` (lines 246-274): dispatch on the selected flag; upload and
download exits mirror the operation outcome, `--list` prints every returned
path and exits 0.  The result is the process exit code paired with the
lines printed to standard output.  (Named `main` in the source; Lean
reserves that name for executables.) -/
def main_dispatch (fs : List Char → Bool) (client : S3Client) (args : CliArgs) :
    Nat × List (List Char) :=
  if args.upload then
    (if (upload_csv_to_s3 fs client args.source args.destination).1 then 0 else 1, [])
  else if args.download then
    (if py_truthy (download_csv_from_s3 fs client args.source args.destination).1 then 0 else 1,
     [])
  else if args.list then
    (0, (list_csv_files_in_s3 client args.source).1)
  else (0, [])

/-- A client whose every call succeeds, whose listing returns the keys of
the spec's listing scenario, and whose stored object body is a small CSV. -/
def demoClient : S3Client where
  upload_file := fun _ _ _ => Except.ok ()
  download_file := fun _ _ _ => Except.ok ()
  list_objects_v2 := fun _ _ =>
    Except.ok (some [("a.csv".data), ("b.txt".data), ("C.CSV".data)])
  get_object := fun _ _ => Except.ok ("a,b\n1,2\n".data)
  put_object := fun _ _ _ => Except.ok ()

theorem splitFirst_no_sep (sep : Char) (l : List Char) (h : sep ∉ l) :
    splitFirst sep l = (l, none) := by
  induction l with
  | nil => rfl
  | cons c rest ih =>
    have hc : c ≠ sep := fun hceq => h (hceq ▸ List.mem_cons_self c rest)
    have hrest : sep ∉ rest := fun hm => h (List.mem_cons_of_mem c hm)
    simp [splitFirst, hc, ih hrest]

theorem splitFirst_first_sep (sep : Char) (a b : List Char) (h : sep ∉ a) :
    splitFirst sep (a ++ sep :: b) = (a, some b) := by
  induction a with
  | nil => simp [splitFirst]
  | cons c a' ih =>
    have hc : c ≠ sep := fun hceq => h (hceq ▸ List.mem_cons_self c a')
    have ha' : sep ∉ a' := fun hm => h (List.mem_cons_of_mem c hm)
    simp [splitFirst, hc, ih ha']

/-- Claim C1: for every input of the form `s3://b/k` with `b` the substring
up to the first slash after the scheme, `parse_s3_path` returns bucket `b`
and key `k`; for `s3://b` with no slash after the bucket the key is empty. -/
theorem parse_s3_path_valid_forms (b k : List Char) (h : ('/' : Char) ∉ b) :
    parse_s3_path (("s3://".data) ++ b ++ '/' :: k) = Except.ok (b, k) ∧
    parse_s3_path (("s3://".data) ++ b) = Except.ok (b, []) := by
  constructor
  · unfold parse_s3_path
    rw [List.append_assoc]
    rw [if_pos ⟨b ++ '/' :: k, rfl⟩]
    show Except.ok ((splitFirst '/' (b ++ '/' :: k)).1,
      ((splitFirst '/' (b ++ '/' :: k)).2).getD []) = _
    rw [splitFirst_first_sep '/' b k h]
    rfl
  · unfold parse_s3_path
    rw [if_pos ⟨b, rfl⟩]
    show Except.ok ((splitFirst '/' b).1, ((splitFirst '/' b).2).getD []) = _
    rw [splitFirst_no_sep '/' b h]
    rfl

theorem parse_s3_path_valid_forms_witness :
    (('/' : Char) ∉ ['b']) ∧
    parse_s3_path (("s3://".data) ++ ['b'] ++ '/' :: ['k']) = Except.ok (['b'], ['k']) ∧
    parse_s3_path (("s3://".data) ++ ['b']) = Except.ok (['b'], []) := by
  refine ⟨by decide, ?_, ?_⟩
  · exact (parse_s3_path_valid_forms ['b'] ['k'] (by decide)).1
  · exact (parse_s3_path_valid_forms ['b'] ['k'] (by decide)).2

/-- Claim C2: every input that does not start with the scheme literal
`s3://` makes `parse_s3_path` raise the path-format error (`ValueError`)
instead of returning a bucket/key pair. -/
theorem parse_s3_path_rejects_bad_scheme (s : List Char)
    (h : ¬ (("s3://".data) <+: s)) :
    parse_s3_path s = Except.error PyError.valueError := by
  unfold parse_s3_path
  rw [if_neg h]

theorem parse_s3_path_rejects_bad_scheme_witness :
    (¬ (("s3://".data) <+: ("http://b".data))) ∧
    parse_s3_path ("http://b".data) = Except.error PyError.valueError := by
  refine ⟨by decide, ?_⟩
  exact parse_s3_path_rejects_bad_scheme ("http://b".data) (by decide)

/-- Claim C10: `parse_s3_path` is not injective at the bucket boundary:
the distinct inputs `s3://b` and `s3://b/` both parse to bucket `b` with
an empty key. -/
theorem parse_s3_path_trailing_slash_collision :
    parse_s3_path ("s3://b".data) = Except.ok (("b".data), []) ∧
    parse_s3_path ("s3://b/".data) = Except.ok (("b".data), []) ∧
    ("s3://b".data) ≠ ("s3://b/".data) := by
  refine ⟨by rfl, by rfl, by decide⟩

/-- Claim C3 as stated is false for the empty parsed prefix: `s3://bucket`
parses to the empty key prefix, the claim's key (a separator is inserted
whenever the prefix does not end in a slash) would be `/data.csv`, but the
source inserts no separator for an empty prefix and produces `data.csv`. -/
theorem upload_key_empty_pref_counterexample :
    parse_s3_path ("s3://bucket".data) = Except.ok (("bucket".data), []) ∧
    upload_s3_key [] ("data.csv".data) = ("data.csv".data) ∧
    claimedUploadKey [] ("data.csv".data) = '/' :: ("data.csv".data) ∧
    upload_s3_key [] ("data.csv".data) ≠ claimedUploadKey [] ("data.csv".data) := by
  refine ⟨by rfl, by rfl, by rfl, by decide⟩

/-- Claim C3 (amended): for every parsed destination prefix, upload computes
the destination key as prefix + basename, inserting a separator exactly when
the prefix is nonempty and does not already end in a slash; the empty prefix
gets no separator. -/
theorem upload_key_matches_amended_claim (keyPref filename : List Char) :
    upload_s3_key keyPref filename = amendedUploadKey keyPref filename := by
  by_cases h : keyPref ≠ [] ∧ keyPref.getLast? ≠ some '/'
  · simp [upload_s3_key, amendedUploadKey, h, List.append_assoc]
  · simp [upload_s3_key, amendedUploadKey, h]

/-- Claim C4: when the local file does not exist, upload returns `False`
with an empty effect trace: the backend client is never constructed and no
backend call is issued. -/
theorem upload_missing_file_no_backend (fs : List Char → Bool) (client : S3Client)
    (local_file_path s3_path : List Char)
    (h : os_path_exists fs local_file_path = false) :
    upload_csv_to_s3 fs client local_file_path s3_path = (false, []) := by
  unfold upload_csv_to_s3
  rw [h]
  simp

theorem upload_missing_file_no_backend_witness :
    os_path_exists (fun _ => false) ("missing.csv".data) = false ∧
    upload_csv_to_s3 (fun _ => false) failClient ("missing.csv".data) ("s3://b/p".data)
      = (false, []) := by
  refine ⟨by rfl, ?_⟩
  exact upload_missing_file_no_backend (fun _ => false) failClient
    ("missing.csv".data) ("s3://b/p".data) (by rfl)

/-- Claim C6: each of the five operations catches every error its try-block
raises (backend errors and unexpected ones alike) at its own boundary and
returns its failure marker — `False`, `None`, or the empty list — instead of
letting the error escape. -/
theorem operations_catch_all_errors (fs : List Char → Bool) (client : S3Client)
    (l sp sp2 d sp3 sp4 sp5 : List Char) (df : DataFrame) :
    (∀ e tr, upload_try client l sp = (Except.error e, tr) →
       (upload_csv_to_s3 fs client l sp).1 = false) ∧
    (∀ e tr, download_try fs client sp2 d = (Except.error e, tr) →
       (download_csv_from_s3 fs client sp2 d).1 = none) ∧
    (∀ e tr, list_try client sp3 = (Except.error e, tr) →
       (list_csv_files_in_s3 client sp3).1 = []) ∧
    (∀ e tr, read_try client sp4 = (Except.error e, tr) →
       (read_csv_from_s3 client sp4).1 = none) ∧
    (∀ e tr, write_try client df sp5 = (Except.error e, tr) →
       (write_dataframe_to_s3 client df sp5).1 = false) := by
  refine ⟨?_, ?_, ?_, ?_, ?_⟩
  · intro e tr h
    cases hex : os_path_exists fs l <;> simp [upload_csv_to_s3, hex, h]
  · intro e tr h
    simp [download_csv_from_s3, h]
  · intro e tr h
    simp [list_csv_files_in_s3, h]
  · intro e tr h
    simp [read_csv_from_s3, h]
  · intro e tr h
    simp [write_dataframe_to_s3, h]

theorem operations_catch_all_errors_witness :
    (upload_csv_to_s3 (fun _ => true) failClient ("f.csv".data) ("s3://b/p".data)).1 = false ∧
    (download_csv_from_s3 (fun _ => true) failClient ("s3://b/x.csv".data) ("out".data)).1
      = none ∧
    (list_csv_files_in_s3 failClient ("s3://b/p/".data)).1 = [] ∧
    (read_csv_from_s3 failClient ("s3://b/x.csv".data)).1 = none ∧
    (write_dataframe_to_s3 failClient ⟨[['a']], []⟩ ("s3://b/x.csv".data)).1 = false := by
  have h := operations_catch_all_errors (fun _ => true) failClient
    ("f.csv".data) ("s3://b/p".data) ("s3://b/x.csv".data) ("out".data)
    ("s3://b/p/".data) ("s3://b/x.csv".data) ("s3://b/x.csv".data) ⟨[['a']], []⟩
  refine ⟨h.1 PyError.clientError _ rfl, h.2.1 PyError.clientError _ rfl,
    h.2.2.1 PyError.clientError _ rfl, h.2.2.2.1 PyError.clientError _ rfl,
    h.2.2.2.2 PyError.clientError _ rfl⟩

theorem filter_csv_keys_eq (bucket_name : List Char) (objs : List (List Char)) :
    filter_csv_keys bucket_name objs =
      (objs.filter (fun key => decide ((".csv".data) <:+ (key.map Char.toLower)))).map
        (fun key => ("s3://".data) ++ bucket_name ++ '/' :: key) := by
  suffices h : ∀ (os : List (List Char)) (acc : List (List Char)),
      os.foldl
        (fun acc key =>
          if (".csv".data) <:+ (key.map Char.toLower)
          then acc ++ [("s3://".data) ++ bucket_name ++ '/' :: key]
          else acc)
        acc =
      acc ++ (os.filter (fun key => decide ((".csv".data) <:+ (key.map Char.toLower)))).map
        (fun key => ("s3://".data) ++ bucket_name ++ '/' :: key) by
    simpa [filter_csv_keys] using h objs []
  intro os
  induction os with
  | nil => intro acc; simp
  | cons k ks ih =>
    intro acc
    simp only [List.foldl_cons, List.filter_cons]
    by_cases hk : (".csv".data) <:+ (k.map Char.toLower)
    · have h2 : decide ((".csv".data) <:+ (k.map Char.toLower)) = true := by simp [hk]
      rw [if_pos hk, if_pos h2, ih]
      simp [List.append_assoc]
    · have h2 : ¬ (decide ((".csv".data) <:+ (k.map Char.toLower)) = true) := by simp [hk]
      rw [if_neg hk, if_neg h2]
      exact ih acc

/-- Claim C5: for every backend listing response, list returns exactly the
keys whose lowercased form ends in `.csv`, rendered as `s3://bucket/key`,
in the backend's order. -/
theorem list_returns_csv_keys_in_order (client : S3Client)
    (s3_path bucket_name keyPref : List Char) (keys : List (List Char))
    (hp : parse_s3_path s3_path = Except.ok (bucket_name, keyPref))
    (hr : client.list_objects_v2 bucket_name keyPref = Except.ok (some keys)) :
    list_csv_files_in_s3 client s3_path =
      ((keys.filter (fun key => decide ((".csv".data) <:+ (key.map Char.toLower)))).map
         (fun key => ("s3://".data) ++ bucket_name ++ '/' :: key),
       [Event.createClient, Event.listObjects bucket_name keyPref]) := by
  unfold list_csv_files_in_s3 list_try
  simp only [hp, hr]
  simp [filter_csv_keys_eq]

theorem list_returns_csv_keys_in_order_witness :
    list_csv_files_in_s3 demoClient ("s3://bucket/p/".data) =
      ([("s3://bucket/a.csv".data), ("s3://bucket/C.CSV".data)],
       [Event.createClient, Event.listObjects ("bucket".data) ("p/".data)]) := by
  have h := list_returns_csv_keys_in_order demoClient ("s3://bucket/p/".data)
    ("bucket".data) ("p/".data) [("a.csv".data), ("b.txt".data), ("C.CSV".data)]
    (by rfl) (by rfl)
  rw [h]
  rfl

/-- Claim C8: when the target directory is absent, download creates it as
the very first effect, before the client is constructed or the backend
contacted; when the transfer then fails, the operation returns `None` with
the directory-creation effect still in the trace and no removal effect. -/
theorem download_creates_dir_before_backend (fs : List Char → Bool) (client : S3Client)
    (s3_path d bucket_name s3_key : List Char) (e : PyError)
    (hp : parse_s3_path s3_path = Except.ok (bucket_name, s3_key))
    (habs : fs d = false) (hd : d ≠ [])
    (hfail : client.download_file bucket_name s3_key
        (os_path_join d (os_path_basename s3_key)) = Except.error e) :
    download_csv_from_s3 fs client s3_path d =
      (none, [Event.createDir d, Event.createClient,
              Event.downloadFile bucket_name s3_key
                (os_path_join d (os_path_basename s3_key))]) ∧
    (download_csv_from_s3 fs client s3_path d).2.head? = some (Event.createDir d) ∧
    Event.removeDir d ∉ (download_csv_from_s3 fs client s3_path d).2 := by
  have hex : os_path_exists fs d = false := by
    unfold os_path_exists
    rw [habs]
    simp
  have hmk : os_makedirs d = Except.ok () := by
    unfold os_makedirs
    rw [if_neg hd]
  have h1 : download_csv_from_s3 fs client s3_path d =
      (none, [Event.createDir d, Event.createClient,
              Event.downloadFile bucket_name s3_key
                (os_path_join d (os_path_basename s3_key))]) := by
    unfold download_csv_from_s3 download_try
    simp only [hp, hex, hmk]
    simp [hfail]
  refine ⟨h1, ?_, ?_⟩
  · rw [h1]
    rfl
  · rw [h1]
    simp

theorem download_creates_dir_before_backend_witness :
    download_csv_from_s3 (fun _ => false) failClient ("s3://b/dir/f.csv".data) ("out".data) =
      (none, [Event.createDir ("out".data), Event.createClient,
              Event.downloadFile ("b".data) ("dir/f.csv".data) ("out/f.csv".data)]) := by
  have h := download_creates_dir_before_backend (fun _ => false) failClient
    ("s3://b/dir/f.csv".data) ("out".data) ("b".data) ("dir/f.csv".data)
    PyError.clientError (by rfl) (by rfl) (by decide) (by rfl)
  exact h.1

theorem os_path_join_ne_nil (d f : List Char) (hd : d ≠ []) : os_path_join d f ≠ [] := by
  unfold os_path_join
  by_cases h1 : f.head? = some '/'
  · rw [if_pos h1]
    intro hf
    rw [hf] at h1
    simp at h1
  · rw [if_neg h1]
    by_cases h2 : d.isEmpty
    · exact absurd (List.isEmpty_iff.mp h2) hd
    · rw [if_neg h2]
      by_cases h3 : d.getLast? = some '/'
      · rw [if_pos h3]
        simp [hd]
      · rw [if_neg h3]
        simp

theorem download_try_ok_ne_nil (fs : List Char → Bool) (client : S3Client)
    (sp d p : List Char) (tr : List Event)
    (h : download_try fs client sp d = (Except.ok p, tr)) : p ≠ [] := by
  unfold download_try at h
  cases hp : parse_s3_path sp with
  | error e =>
    rw [hp] at h
    simp at h
  | ok bk =>
    obtain ⟨b, k⟩ := bk
    rw [hp] at h
    cases hex : os_path_exists fs d with
    | true =>
      simp only [hex] at h
      have hd : d ≠ [] := by
        intro hde
        rw [hde] at hex
        simp [os_path_exists] at hex
      cases hdl : client.download_file b k (os_path_join d (os_path_basename k)) with
      | error e => simp only [hdl] at h; simp at h
      | ok u =>
        simp only [hdl] at h
        simp at h
        obtain ⟨hp1, _⟩ := h
        rw [← hp1]
        exact os_path_join_ne_nil d (os_path_basename k) hd
    | false =>
      simp only [hex] at h
      by_cases hd : d = []
      · rw [hd] at h
        simp [os_makedirs] at h
      · have hmk : os_makedirs d = Except.ok () := by
          unfold os_makedirs
          rw [if_neg hd]
        simp only [hmk] at h
        cases hdl : client.download_file b k (os_path_join d (os_path_basename k)) with
        | error e => simp only [hdl] at h; simp at h
        | ok u =>
          simp only [hdl] at h
          simp at h
          obtain ⟨hp1, _⟩ := h
          rw [← hp1]
          exact os_path_join_ne_nil d (os_path_basename k) hd

theorem download_never_empty_path (fs : List Char → Bool) (client : S3Client)
    (sp d : List Char) : (download_csv_from_s3 fs client sp d).1 ≠ some [] := by
  unfold download_csv_from_s3
  cases hdt : download_try fs client sp d with
  | mk r tr =>
    cases r with
    | ok p =>
      simp only []
      intro hc
      simp at hc
      exact download_try_ok_ne_nil fs client sp d p tr hdt hc
    | error e => simp

/-- Claim C7: with exactly one flag selected, an upload or download run
exits 0 exactly when the operation reports success (`True` / a returned
path) and 1 otherwise; a list run prints each returned path on its own line
and always exits 0, even when the listing failed internally and returned
the empty list. -/
theorem dispatcher_exit_codes (fs : List Char → Bool) (client : S3Client)
    (src dst : List Char) :
    main_dispatch fs client ⟨true, false, false, src, dst⟩ =
      ((if (upload_csv_to_s3 fs client src dst).1 then 0 else 1), []) ∧
    main_dispatch fs client ⟨false, true, false, src, dst⟩ =
      ((if (download_csv_from_s3 fs client src dst).1.isSome then 0 else 1), []) ∧
    main_dispatch fs client ⟨false, false, true, src, dst⟩ =
      (0, (list_csv_files_in_s3 client src).1) := by
  refine ⟨by rfl, ?_, by rfl⟩
  unfold main_dispatch
  simp only []
  have htr : py_truthy (download_csv_from_s3 fs client src dst).1 =
      (download_csv_from_s3 fs client src dst).1.isSome := by
    cases hX : (download_csv_from_s3 fs client src dst).1 with
    | none => rfl
    | some s =>
      have hs : s ≠ [] := by
        intro hse
        rw [hse] at hX
        exact download_never_empty_path fs client src dst hX
      simp [py_truthy, hs]
  rw [htr]
  simp

theorem splitList_ne_nil (sep : Char) (l : List Char) : splitList sep l ≠ [] := by
  cases l with
  | nil => simp [splitList]
  | cons c rest =>
    unfold splitList
    by_cases hc : c = sep
    · simp [hc]
    · rw [if_neg hc]
      cases h : splitList sep rest with
      | nil => simp
      | cons p ps => simp

theorem splitList_single (sep : Char) (p : List Char) (h : sep ∉ p) :
    splitList sep p = [p] := by
  induction p with
  | nil => rfl
  | cons c p' ih =>
    have hc : c ≠ sep := fun hceq => h (hceq ▸ List.mem_cons_self c p')
    have hp' : sep ∉ p' := fun hm => h (List.mem_cons_of_mem c hm)
    unfold splitList
    rw [if_neg hc, ih hp']

theorem splitList_sep_cons (sep : Char) (p rest : List Char) (h : sep ∉ p) :
    splitList sep (p ++ sep :: rest) = p :: splitList sep rest := by
  induction p with
  | nil => simp [splitList]
  | cons c p' ih =>
    have hc : c ≠ sep := fun hceq => h (hceq ▸ List.mem_cons_self c p')
    have hp' : sep ∉ p' := fun hm => h (List.mem_cons_of_mem c hm)
    have hstep : splitList sep ((c :: p') ++ sep :: rest) =
        (if c = sep then [] :: splitList sep (p' ++ sep :: rest)
         else match splitList sep (p' ++ sep :: rest) with
           | [] => [[c]]
           | q :: qs => (c :: q) :: qs) := rfl
    rw [hstep, if_neg hc, ih hp']

theorem not_mem_of_mem_splitList (sep : Char) (l : List Char) (q : List Char)
    (hq : q ∈ splitList sep l) : sep ∉ q := by
  induction l generalizing q with
  | nil =>
    simp [splitList] at hq
    subst hq
    simp
  | cons c rest ih =>
    unfold splitList at hq
    by_cases hc : c = sep
    · rw [if_pos hc] at hq
      rcases List.mem_cons.mp hq with h1 | h1
      · subst h1; simp
      · exact ih q h1
    · rw [if_neg hc] at hq
      cases hsp : splitList sep rest with
      | nil => exact absurd hsp (splitList_ne_nil sep rest)
      | cons p ps =>
        rw [hsp] at hq
        rcases List.mem_cons.mp hq with h1 | h1
        · subst h1
          intro hmem
          rcases List.mem_cons.mp hmem with h2 | h2
          · exact hc h2.symm
          · exact ih p (by rw [hsp]; exact List.mem_cons_self p ps) h2
        · exact ih q (by rw [hsp]; exact List.mem_cons_of_mem p h1)

theorem mem_of_mem_splitList (sep : Char) (l : List Char) (q : List Char) (c : Char)
    (hq : q ∈ splitList sep l) (hc : c ∈ q) : c ∈ l := by
  induction l generalizing q with
  | nil =>
    simp [splitList] at hq
    subst hq
    simp at hc
  | cons a rest ih =>
    unfold splitList at hq
    by_cases ha : a = sep
    · rw [if_pos ha] at hq
      rcases List.mem_cons.mp hq with h1 | h1
      · subst h1; simp at hc
      · exact List.mem_cons_of_mem a (ih q h1 hc)
    · rw [if_neg ha] at hq
      cases hsp : splitList sep rest with
      | nil => exact absurd hsp (splitList_ne_nil sep rest)
      | cons p ps =>
        rw [hsp] at hq
        rcases List.mem_cons.mp hq with h1 | h1
        · subst h1
          rcases List.mem_cons.mp hc with h2 | h2
          · rw [h2]; exact List.mem_cons_self a rest
          · exact List.mem_cons_of_mem a
              (ih p (by rw [hsp]; exact List.mem_cons_self p ps) h2)
        · exact List.mem_cons_of_mem a
            (ih q (by rw [hsp]; exact List.mem_cons_of_mem p h1) hc)

theorem mem_joinSep (sep : Char) (parts : List (List Char)) (c : Char)
    (hc : c ∈ joinSep sep parts) : c = sep ∨ ∃ p ∈ parts, c ∈ p := by
  induction parts with
  | nil => simp [joinSep] at hc
  | cons p ps ih =>
    cases ps with
    | nil =>
      simp [joinSep] at hc
      exact Or.inr ⟨p, by simp, hc⟩
    | cons q qs =>
      rw [show joinSep sep (p :: q :: qs) = p ++ sep :: joinSep sep (q :: qs) from rfl] at hc
      rcases List.mem_append.mp hc with h1 | h1
      · exact Or.inr ⟨p, by simp, h1⟩
      · rcases List.mem_cons.mp h1 with h2 | h2
        · exact Or.inl h2
        · rcases ih h2 with h3 | ⟨r, hr, hcr⟩
          · exact Or.inl h3
          · exact Or.inr ⟨r, List.mem_cons_of_mem p hr, hcr⟩

theorem joinSep_concat_nil (sep : Char) (L : List (List Char)) (h : L ≠ []) :
    joinSep sep (L ++ [[]]) = joinSep sep L ++ [sep] := by
  induction L with
  | nil => exact absurd rfl h
  | cons p ps ih =>
    cases ps with
    | nil => rfl
    | cons q qs =>
      show p ++ sep :: joinSep sep ((q :: qs) ++ [[]]) =
        (p ++ sep :: joinSep sep (q :: qs)) ++ [sep]
      rw [ih (by simp)]
      simp [List.append_assoc]

theorem splitList_joinSep (sep : Char) (parts : List (List Char)) (hne : parts ≠ [])
    (hcl : ∀ p ∈ parts, sep ∉ p) :
    splitList sep (joinSep sep parts) = parts := by
  induction parts with
  | nil => exact absurd rfl hne
  | cons p ps ih =>
    cases ps with
    | nil =>
      show splitList sep (joinSep sep [p]) = [p]
      rw [show joinSep sep [p] = p from rfl]
      exact splitList_single sep p (hcl p (by simp))
    | cons q qs =>
      show splitList sep (p ++ sep :: joinSep sep (q :: qs)) = p :: q :: qs
      rw [splitList_sep_cons sep p _ (hcl p (by simp))]
      rw [ih (by simp) (fun r hr => hcl r (List.mem_cons_of_mem p hr))]

theorem pd_read_ok_facts (body : List Char) (df : DataFrame)
    (h : pd_read_csv body = Except.ok df) :
    df.columns ≠ [] ∧ (∀ c ∈ df.columns, (',' : Char) ∉ c ∧ ('\n' : Char) ∉ c) ∧
    (∀ r ∈ df.rows, r ≠ [] ∧ ∀ c ∈ r, (',' : Char) ∉ c ∧ ('\n' : Char) ∉ c) := by
  have hb : pd_read_csv body =
      (match (if (splitList '\n' body).getLast? = some [] then
                (splitList '\n' body).dropLast
              else splitList '\n' body) with
       | [] => Except.error PyError.emptyDataError
       | header :: rest =>
           Except.ok ⟨splitList ',' header, rest.map (fun ln => splitList ',' ln)⟩) := rfl
  rw [hb] at h
  have hsub : (if (splitList '\n' body).getLast? = some [] then
                (splitList '\n' body).dropLast
              else splitList '\n' body) ⊆ splitList '\n' body := by
    split
    · exact List.dropLast_subset _
    · exact fun x hx => hx
  cases hl : (if (splitList '\n' body).getLast? = some [] then
                (splitList '\n' body).dropLast
              else splitList '\n' body) with
  | nil =>
    rw [hl] at h
    simp at h
  | cons header rest =>
    rw [hl] at h
    rw [hl] at hsub
    simp only [Except.ok.injEq] at h
    have hdf : df = ⟨splitList ',' header, rest.map (fun ln => splitList ',' ln)⟩ := h.symm
    have hhdr : ('\n' : Char) ∉ header :=
      not_mem_of_mem_splitList '\n' body header (hsub (List.mem_cons_self header rest))
    rw [hdf]
    refine ⟨splitList_ne_nil ',' header, ?_, ?_⟩
    · intro c hcmem
      refine ⟨not_mem_of_mem_splitList ',' header c hcmem, ?_⟩
      intro hnl
      exact hhdr (mem_of_mem_splitList ',' header c '\n' hcmem hnl)
    · intro r hrmem
      simp only [List.mem_map] at hrmem
      obtain ⟨ln, hln, hlneq⟩ := hrmem
      have hlnl : ('\n' : Char) ∉ ln :=
        not_mem_of_mem_splitList '\n' body ln (hsub (List.mem_cons_of_mem header hln))
      rw [← hlneq]
      refine ⟨splitList_ne_nil ',' ln, ?_⟩
      intro c hcmem
      refine ⟨not_mem_of_mem_splitList ',' ln c hcmem, ?_⟩
      intro hnl
      exact hlnl (mem_of_mem_splitList ',' ln c '\n' hcmem hnl)

theorem pd_read_to_csv (df : DataFrame) (hc : df.columns ≠ [])
    (hcc : ∀ c ∈ df.columns, (',' : Char) ∉ c ∧ ('\n' : Char) ∉ c)
    (hr : ∀ r ∈ df.rows, r ≠ [] ∧ ∀ c ∈ r, (',' : Char) ∉ c ∧ ('\n' : Char) ∉ c) :
    pd_read_csv (pd_to_csv df) = Except.ok df := by
  have hL_no_nl : ∀ ln ∈ (joinSep ',' df.columns :: df.rows.map (fun r => joinSep ',' r)),
      ('\n' : Char) ∉ ln := by
    intro ln hln hnl
    rcases List.mem_cons.mp hln with h1 | h1
    · rw [h1] at hnl
      rcases mem_joinSep ',' df.columns '\n' hnl with h2 | ⟨p, hp, hcp⟩
      · exact absurd h2 (by decide)
      · exact (hcc p hp).2 hcp
    · rcases List.mem_map.mp h1 with ⟨r, hrr, hreq⟩
      rw [← hreq] at hnl
      rcases mem_joinSep ',' r '\n' hnl with h2 | ⟨p, hp, hcp⟩
      · exact absurd h2 (by decide)
      · exact ((hr r hrr).2 p hp).2 hcp
  have hsplit : splitList '\n' (pd_to_csv df) =
      (joinSep ',' df.columns :: df.rows.map (fun r => joinSep ',' r)) ++ [[]] := by
    unfold pd_to_csv
    rw [← joinSep_concat_nil '\n' _ (by simp)]
    refine splitList_joinSep '\n' _ (by simp) ?_
    intro p hp
    rcases List.mem_append.mp hp with h1 | h1
    · exact hL_no_nl p h1
    · simp at h1
      rw [h1]
      simp
  have hgl : (splitList '\n' (pd_to_csv df)).getLast? = some [] := by
    rw [hsplit]
    exact List.getLast?_concat _
  have hdl : (splitList '\n' (pd_to_csv df)).dropLast =
      joinSep ',' df.columns :: df.rows.map (fun r => joinSep ',' r) := by
    rw [hsplit]
    exact List.dropLast_concat
  have hb : pd_read_csv (pd_to_csv df) =
      (match (if (splitList '\n' (pd_to_csv df)).getLast? = some [] then
                (splitList '\n' (pd_to_csv df)).dropLast
              else splitList '\n' (pd_to_csv df)) with
       | [] => Except.error PyError.emptyDataError
       | header :: rest =>
           Except.ok ⟨splitList ',' header, rest.map (fun ln => splitList ',' ln)⟩) := rfl
  rw [hb, if_pos hgl, hdl]
  have hcols : splitList ',' (joinSep ',' df.columns) = df.columns :=
    splitList_joinSep ',' df.columns hc (fun p hp => (hcc p hp).1)
  have hrows : (df.rows.map (fun r => joinSep ',' r)).map (fun ln => splitList ',' ln)
      = df.rows := by
    rw [List.map_map]
    have hpt : ∀ r ∈ df.rows, splitList ',' (joinSep ',' r) = r := fun r hrr =>
      splitList_joinSep ',' r (hr r hrr).1 (fun p hp => ((hr r hrr).2 p hp).1)
    calc df.rows.map ((fun ln => splitList ',' ln) ∘ (fun r => joinSep ',' r))
        = df.rows.map id := List.map_congr_left (fun r hrr => hpt r hrr)
      _ = df.rows := List.map_id df.rows
  show Except.ok ⟨splitList ',' (joinSep ',' df.columns),
    (df.rows.map (fun r => joinSep ',' r)).map (fun ln => splitList ',' ln)⟩ = Except.ok df
  rw [hcols, hrows]

theorem pd_roundtrip (body : List Char) (df : DataFrame)
    (h : pd_read_csv body = Except.ok df) :
    pd_read_csv (pd_to_csv df) = Except.ok df := by
  obtain ⟨h1, h2, h3⟩ := pd_read_ok_facts body df h
  exact pd_read_to_csv df h1 h2 h3

/-- Claim C9: a table obtained by readTable, written back with writeTable,
and read again through a backend that returns exactly the written bytes
yields a table with the same row count and the same column names (here in
fact the same table). -/
theorem read_write_read_roundtrip (client1 client2 client3 : S3Client)
    (p1 p2 b2 k2 : List Char) (df1 : DataFrame)
    (h1 : (read_csv_from_s3 client1 p1).1 = some df1)
    (h2 : parse_s3_path p2 = Except.ok (b2, k2))
    (_hw : (write_dataframe_to_s3 client2 df1 p2).1 = true)
    (h3 : client3.get_object b2 k2 = Except.ok (pd_to_csv df1)) :
    ∃ df2, (read_csv_from_s3 client3 p2).1 = some df2 ∧
      df2.rows.length = df1.rows.length ∧ df2.columns = df1.columns := by
  have hbody : ∃ body, pd_read_csv body = Except.ok df1 := by
    unfold read_csv_from_s3 read_try at h1
    cases hp : parse_s3_path p1 with
    | error e =>
      simp only [hp] at h1
      simp at h1
    | ok bk =>
      obtain ⟨b, k⟩ := bk
      simp only [hp] at h1
      cases hg : client1.get_object b k with
      | error e =>
        simp only [hg] at h1
        simp at h1
      | ok body =>
        simp only [hg] at h1
        cases hpd : pd_read_csv body with
        | error e =>
          simp only [hpd] at h1
          simp at h1
        | ok df =>
          simp only [hpd] at h1
          simp at h1
          exact ⟨body, by rw [hpd, h1]⟩
  obtain ⟨body, hbd⟩ := hbody
  refine ⟨df1, ?_, rfl, rfl⟩
  unfold read_csv_from_s3 read_try
  simp only [h2, h3, pd_roundtrip body df1 hbd]

theorem read_write_read_roundtrip_witness :
    ∃ df2, (read_csv_from_s3 demoClient ("s3://bucket/u.csv".data)).1 = some df2 ∧
      df2.rows.length = 1 ∧ df2.columns = [['a'], ['b']] := by
  obtain ⟨df2, ha, hl, hcq⟩ := read_write_read_roundtrip demoClient demoClient demoClient
    ("s3://bucket/t.csv".data) ("s3://bucket/u.csv".data) ("bucket".data) ("u.csv".data)
    ⟨[['a'], ['b']], [[['1'], ['2']]]⟩ (by rfl) (by rfl) (by rfl) (by rfl)
  exact ⟨df2, ha, by rw [hl]; rfl, by rw [hcq]⟩
